import Mathlib

/-!
Shallow embedding of the user CRUD pipeline of an Express/TypeScript template:
router → validation → controller → service → repository → relational store.

The repository layer is embedded as pure functions over an explicit `Store`
(the `users` table plus the auto-increment counter); timestamps are abstract
`Nat` ticks and the driver's `new Date(...)` normalisation on read paths is the
identity on them.  The service layer is embedded twice: once over the concrete
`Store` (the execution in which no database call raises), and once over an
abstract `RepoBehavior` whose calls may raise (`Except String`), which models
the `try`/`catch` translation of raised repository errors into envelopes.
-/

namespace ExpressTs

/-- The `User` entity (`UserSchema` in `userModel`): id, name, email, optional
age (the `age` column is nullable), and the two server-assigned timestamps. -/
structure User where
  id : Nat
  name : String
  email : String
  age : Option Int
  createdAt : Nat
  updatedAt : Nat
deriving DecidableEq, Repr

/-- Payload carried by a response envelope: a single user or a list of users. -/
inductive RespBody where
  | user : User → RespBody
  | users : List User → RespBody
deriving DecidableEq, Repr

/-- The uniform response envelope `{success, message, responseObject, statusCode}`.
`none` models a `null` payload. -/
structure ServiceResponse where
  success : Bool
  message : String
  responseObject : Option RespBody
  statusCode : Nat
deriving DecidableEq, Repr

/-- Modelled from the spec: the envelope module (`serviceResponse`) is not under
src.  `ServiceResponse.success(message, payload, statusCode)` constructs a
success envelope: success flag true, given payload and status code. -/
def ServiceResponse.mkSuccess (message : String) (responseObject : Option RespBody)
    (statusCode : Nat) : ServiceResponse :=
  { success := true, message := message, responseObject := responseObject,
    statusCode := statusCode }

/-- Modelled from the spec: the envelope module (`serviceResponse`) is not under
src.  `ServiceResponse.failure(message, payload, statusCode)` constructs a
failure envelope: success flag false, given payload and status code. -/
def ServiceResponse.mkFailure (message : String) (responseObject : Option RespBody)
    (statusCode : Nat) : ServiceResponse :=
  { success := false, message := message, responseObject := responseObject,
    statusCode := statusCode }

namespace StatusCodes

def OK : Nat := 200

def CREATED : Nat := 201

def NO_CONTENT : Nat := 204

def BAD_REQUEST : Nat := 400

def NOT_FOUND : Nat := 404

def CONFLICT : Nat := 409

def INTERNAL_SERVER_ERROR : Nat := 500

end StatusCodes

/-- Input of `UserService.create` / `UserRepository.createAsync`
(`Omit<User, id | createdAt | updatedAt>`): name, email, optional age. -/
structure CreateData where
  name : String
  email : String
  age : Option Int
deriving DecidableEq, Repr

/-- Input of `UserService.update` / `UserRepository.updateAsync`: each of
name/email/age is `some` exactly when the field was supplied (not `undefined`). -/
structure UpdateData where
  name : Option String
  email : Option String
  age : Option Int
deriving DecidableEq, Repr

/-- The empty update body `{}`. -/
def UpdateData.empty : UpdateData := ⟨none, none, none⟩

/-- The `users` table: its rows in table order, plus the `AUTO_INCREMENT`
counter that the next `INSERT` will assign. -/
structure Store where
  rows : List User
  nextId : Nat
deriving DecidableEq, Repr

/-- Well-formedness maintained by the relational store: the auto-increment
counter is strictly above every assigned id (ids are never reused). -/
def Store.WF (s : Store) : Prop :=
  ∀ u ∈ s.rows, u.id < s.nextId

instance (s : Store) : Decidable s.WF := by
  unfold Store.WF; infer_instance

namespace UserRepository

/-- `findAllAsync`: `SELECT * FROM users`, normalising the timestamp fields of
every row (the normalisation is the identity in this model). -/
def findAllAsync (s : Store) : List User :=
  s.rows.map (fun u => { u with createdAt := u.createdAt, updatedAt := u.updatedAt })

/-- `findByIdAsync(id)`: `SELECT * FROM users WHERE id = ?`; `null` when no row
matches, otherwise the first matching row with normalised timestamps. -/
def findByIdAsync (s : Store) (id : Nat) : Option User :=
  match s.rows.filter (fun u => u.id == id) with
  | [] => none
  | u :: _ => some { u with createdAt := u.createdAt, updatedAt := u.updatedAt }

/-- `createAsync(user)`: `INSERT INTO users (name, email, age) VALUES (?, ?, ?)`
assigning `insertId = nextId` and the current time to both timestamp columns
(their DDL defaults), then re-read `SELECT * FROM users WHERE id = ?` and take
`users[0]` with no emptiness check — `none` models the `undefined` first-row
access on an empty re-read. -/
def createAsync (s : Store) (user : CreateData) (now : Nat) : Option User × Store :=
  let newRow : User :=
    { id := s.nextId, name := user.name, email := user.email, age := user.age,
      createdAt := now, updatedAt := now }
  let rows' := s.rows ++ [newRow]
  let reRead := rows'.filter (fun u => u.id == s.nextId)
  (reRead.head?.map (fun u => { u with createdAt := u.createdAt, updatedAt := u.updatedAt }),
   { rows := rows', nextId := s.nextId + 1 })

/-- Effect of one `UPDATE users SET ... WHERE id = ?` on a matching row: the
supplied fields are overwritten and `updatedAt` is refreshed (the column is
declared `ON UPDATE CURRENT_TIMESTAMP`); `id` and `createdAt` are untouched. -/
def applyUpdate (data : UpdateData) (now : Nat) (u : User) : User :=
  { u with
    name := data.name.getD u.name,
    email := data.email.getD u.email,
    age := match data.age with | some a => some a | none => u.age,
    updatedAt := now }

/-- `updateAsync(id, user)`: builds the `SET` clause from the fields that are
defined; with no fields it returns `findByIdAsync(id)`; otherwise it runs the
`UPDATE`, returns `null` when `affectedRows === 0`, and re-reads the row on
success. -/
def updateAsync (s : Store) (id : Nat) (user : UpdateData) (now : Nat) :
    Option User × Store :=
  if user.name = none ∧ user.email = none ∧ user.age = none then
    (findByIdAsync s id, s)
  else
    let affected := (s.rows.filter (fun u => u.id == id)).length
    let rows' := s.rows.map (fun u => if u.id == id then applyUpdate user now u else u)
    let s' : Store := { rows := rows', nextId := s.nextId }
    if affected = 0 then (none, s')
    else (findByIdAsync s' id, s')

/-- `deleteAsync(id)`: `DELETE FROM users WHERE id = ?`, reporting
`affectedRows > 0`. -/
def deleteAsync (s : Store) (id : Nat) : Bool × Store :=
  let affected := (s.rows.filter (fun u => u.id == id)).length
  (decide (affected > 0), { rows := s.rows.filter (fun u => u.id != id), nextId := s.nextId })

end UserRepository

namespace UserService

/-- `UserService.findAll` on the non-raising execution over a concrete store. -/
def findAll (s : Store) : ServiceResponse × Store :=
  let users := UserRepository.findAllAsync s
  if users.isEmpty then
    (ServiceResponse.mkFailure "No Users found" none StatusCodes.NOT_FOUND, s)
  else
    (ServiceResponse.mkSuccess "Users found" (some (RespBody.users users)) StatusCodes.OK, s)

/-- `UserService.findById` on the non-raising execution over a concrete store. -/
def findById (s : Store) (id : Nat) : ServiceResponse × Store :=
  match UserRepository.findByIdAsync s id with
  | none => (ServiceResponse.mkFailure "User not found" none StatusCodes.NOT_FOUND, s)
  | some user =>
    (ServiceResponse.mkSuccess "User found" (some (RespBody.user user)) StatusCodes.OK, s)

/-- `UserService.create` on the non-raising execution over a concrete store:
scan the full set for an email equal (`===`) to the input's, 409 on a match,
otherwise insert.  The `none` re-read branch models the `TypeError` thrown on
an `undefined` first row, caught by the surrounding `try`/`catch` as a 500. -/
def create (s : Store) (userData : CreateData) (now : Nat) : ServiceResponse × Store :=
  let users := UserRepository.findAllAsync s
  let emailExists := users.any (fun user => user.email == userData.email)
  if emailExists then
    (ServiceResponse.mkFailure "Email already in use" none StatusCodes.CONFLICT, s)
  else
    match UserRepository.createAsync s userData now with
    | (some user, s') =>
      (ServiceResponse.mkSuccess "User created successfully" (some (RespBody.user user))
        StatusCodes.CREATED, s')
    | (none, s') =>
      (ServiceResponse.mkFailure "An error occurred while creating user." none
        StatusCodes.INTERNAL_SERVER_ERROR, s')

/-- `UserService.update` on the non-raising execution over a concrete store.
The guard `if (userData.email && userData.email !== existingUser.email)` is
JavaScript truthiness: the scan runs only when the supplied email is defined,
non-empty, and differs from the target's current email. -/
def update (s : Store) (id : Nat) (userData : UpdateData) (now : Nat) :
    ServiceResponse × Store :=
  match UserRepository.findByIdAsync s id with
  | none => (ServiceResponse.mkFailure "User not found" none StatusCodes.NOT_FOUND, s)
  | some existingUser =>
    let emailConflict :=
      match userData.email with
      | some e =>
        if e ≠ "" ∧ e ≠ existingUser.email then
          (UserRepository.findAllAsync s).any (fun user => user.email == e && user.id != id)
        else false
      | none => false
    if emailConflict then
      (ServiceResponse.mkFailure "Email already in use" none StatusCodes.CONFLICT, s)
    else
      match UserRepository.updateAsync s id userData now with
      | (none, s') =>
        (ServiceResponse.mkFailure "Failed to update user" none
          StatusCodes.INTERNAL_SERVER_ERROR, s')
      | (some updatedUser, s') =>
        (ServiceResponse.mkSuccess "User updated successfully"
          (some (RespBody.user updatedUser)) StatusCodes.OK, s')

/-- `UserService.delete` on the non-raising execution over a concrete store:
existence check via `findByIdAsync`, then `deleteAsync`, 500 when it reports
no row affected, 204 with a null payload on success. -/
def delete (s : Store) (id : Nat) : ServiceResponse × Store :=
  match UserRepository.findByIdAsync s id with
  | none => (ServiceResponse.mkFailure "User not found" none StatusCodes.NOT_FOUND, s)
  | some _ =>
    match UserRepository.deleteAsync s id with
    | (deleted, s') =>
      if deleted then
        (ServiceResponse.mkSuccess "User deleted successfully" none StatusCodes.NO_CONTENT, s')
      else
        (ServiceResponse.mkFailure "Failed to delete user" none
          StatusCodes.INTERNAL_SERVER_ERROR, s')

end UserService

/-- One possible behaviour of the injected repository for a single service
call: each method either returns a value or raises an error with a message
(`Except.error`), as the real repository re-raises database errors unchanged. -/
structure RepoBehavior where
  findAllAsync : Except String (List User)
  findByIdAsync : Nat → Except String (Option User)
  createAsync : CreateData → Except String User
  updateAsync : Nat → UpdateData → Except String (Option User)
  deleteAsync : Nat → Except String Bool

namespace UserService

/-- Body of the `try` block of `UserService.findAll` over an injected
repository behaviour; each `await` of a raising call re-raises (`.error e`). -/
def findAllTry (repo : RepoBehavior) : Except String ServiceResponse :=
  match repo.findAllAsync with
  | .error e => .error e
  | .ok users =>
    if users.isEmpty then
      .ok (ServiceResponse.mkFailure "No Users found" none StatusCodes.NOT_FOUND)
    else
      .ok (ServiceResponse.mkSuccess "Users found" (some (RespBody.users users)) StatusCodes.OK)

/-- `UserService.findAll` with its `catch` clause: any raised error becomes the
generic 500 envelope. -/
def findAllE (repo : RepoBehavior) : ServiceResponse :=
  match findAllTry repo with
  | .ok r => r
  | .error _ =>
    ServiceResponse.mkFailure "An error occurred while retrieving users." none
      StatusCodes.INTERNAL_SERVER_ERROR

/-- Body of the `try` block of `UserService.findById` over an injected
repository behaviour. -/
def findByIdTry (repo : RepoBehavior) (id : Nat) : Except String ServiceResponse :=
  match repo.findByIdAsync id with
  | .error e => .error e
  | .ok none => .ok (ServiceResponse.mkFailure "User not found" none StatusCodes.NOT_FOUND)
  | .ok (some u) =>
    .ok (ServiceResponse.mkSuccess "User found" (some (RespBody.user u)) StatusCodes.OK)

/-- `UserService.findById` with its `catch` clause. -/
def findByIdE (repo : RepoBehavior) (id : Nat) : ServiceResponse :=
  match findByIdTry repo id with
  | .ok r => r
  | .error _ =>
    ServiceResponse.mkFailure "An error occurred while finding user." none
      StatusCodes.INTERNAL_SERVER_ERROR

/-- Body of the `try` block of `UserService.create` over an injected
repository behaviour. -/
def createTry (repo : RepoBehavior) (userData : CreateData) : Except String ServiceResponse :=
  match repo.findAllAsync with
  | .error e => .error e
  | .ok users =>
    if users.any (fun user => user.email == userData.email) then
      .ok (ServiceResponse.mkFailure "Email already in use" none StatusCodes.CONFLICT)
    else
      match repo.createAsync userData with
      | .error e => .error e
      | .ok user =>
        .ok (ServiceResponse.mkSuccess "User created successfully" (some (RespBody.user user))
          StatusCodes.CREATED)

/-- `UserService.create` with its `catch` clause. -/
def createE (repo : RepoBehavior) (userData : CreateData) : ServiceResponse :=
  match createTry repo userData with
  | .ok r => r
  | .error _ =>
    ServiceResponse.mkFailure "An error occurred while creating user." none
      StatusCodes.INTERNAL_SERVER_ERROR

/-- The email-uniqueness scan of `UserService.update`: when the supplied email
is truthy (defined and non-empty) and differs from the target's current email,
load the full set and test for another user (different id) holding it;
otherwise the scan is skipped and there is no conflict. -/
def updateEmailConflict (repo : RepoBehavior) (id : Nat) (userData : UpdateData)
    (existingUser : User) : Except String Bool :=
  match userData.email with
  | some e =>
    if e ≠ "" ∧ e ≠ existingUser.email then
      match repo.findAllAsync with
      | .error err => .error err
      | .ok users => .ok (users.any (fun user => user.email == e && user.id != id))
    else .ok false
  | none => .ok false

/-- Body of the `try` block of `UserService.update` over an injected
repository behaviour. -/
def updateTry (repo : RepoBehavior) (id : Nat) (userData : UpdateData) :
    Except String ServiceResponse :=
  match repo.findByIdAsync id with
  | .error e => .error e
  | .ok none => .ok (ServiceResponse.mkFailure "User not found" none StatusCodes.NOT_FOUND)
  | .ok (some existingUser) =>
    match updateEmailConflict repo id userData existingUser with
    | .error e => .error e
    | .ok true => .ok (ServiceResponse.mkFailure "Email already in use" none StatusCodes.CONFLICT)
    | .ok false =>
      match repo.updateAsync id userData with
      | .error e => .error e
      | .ok none =>
        .ok (ServiceResponse.mkFailure "Failed to update user" none
          StatusCodes.INTERNAL_SERVER_ERROR)
      | .ok (some u) =>
        .ok (ServiceResponse.mkSuccess "User updated successfully" (some (RespBody.user u))
          StatusCodes.OK)

/-- `UserService.update` with its `catch` clause. -/
def updateE (repo : RepoBehavior) (id : Nat) (userData : UpdateData) : ServiceResponse :=
  match updateTry repo id userData with
  | .ok r => r
  | .error _ =>
    ServiceResponse.mkFailure "An error occurred while updating user." none
      StatusCodes.INTERNAL_SERVER_ERROR

/-- Body of the `try` block of `UserService.delete` over an injected
repository behaviour. -/
def deleteTry (repo : RepoBehavior) (id : Nat) : Except String ServiceResponse :=
  match repo.findByIdAsync id with
  | .error e => .error e
  | .ok none => .ok (ServiceResponse.mkFailure "User not found" none StatusCodes.NOT_FOUND)
  | .ok (some _) =>
    match repo.deleteAsync id with
    | .error e => .error e
    | .ok true =>
      .ok (ServiceResponse.mkSuccess "User deleted successfully" none StatusCodes.NO_CONTENT)
    | .ok false =>
      .ok (ServiceResponse.mkFailure "Failed to delete user" none
        StatusCodes.INTERNAL_SERVER_ERROR)

/-- `UserService.delete` with its `catch` clause. -/
def deleteE (repo : RepoBehavior) (id : Nat) : ServiceResponse :=
  match deleteTry repo id with
  | .ok r => r
  | .error _ =>
    ServiceResponse.mkFailure "An error occurred while deleting user." none
      StatusCodes.INTERNAL_SERVER_ERROR

end UserService

/-- Outcome of a middleware: either yield control to the next stage with the
request, or short-circuit the pipeline with a response envelope. -/
inductive MiddlewareOutcome (ρ : Type) where
  | next : ρ → MiddlewareOutcome ρ
  | respond : ServiceResponse → MiddlewareOutcome ρ
deriving DecidableEq

/-- `validateRequest(schema)` from `httpHandlers`: run the schema over the
request; an empty violation list means `schema.parse` succeeded, so `next()` is
called with the request untouched (the parse result is discarded); otherwise
the `ZodError`'s messages are joined with `", "` behind `"Invalid input: "` and
sent as a failure envelope at 400 via `handleServiceResponse`. -/
def validateRequest {ρ : Type} (parse : ρ → List String) (req : ρ) : MiddlewareOutcome ρ :=
  match parse req with
  | [] => MiddlewareOutcome.next req
  | errs =>
    MiddlewareOutcome.respond
      (ServiceResponse.mkFailure ("Invalid input: " ++ String.intercalate ", " errs) none
        StatusCodes.BAD_REQUEST)

/-- Decimal parse of a character list: `some` exactly on non-empty all-digit
input. -/
def parseDigits (cs : List Char) : Option Nat :=
  if cs ≠ [] ∧ cs.all (fun c => c.isDigit) then
    some (cs.foldl (fun n c => n * 10 + (c.toNat - 48)) 0)
  else none

/-- Decimal parse of a string, via its character list. -/
def strToNat (s : String) : Option Nat := parseDigits s.data

/-- Modelled from the spec: `commonValidations.id` (the `commonValidation`
module is not under src) — `params.id` must parse as a positive integer;
the result is the list of constraint-violation messages. -/
def commonValidationsId (idStr : String) : List String :=
  match strToNat idStr with
  | some n => if 0 < n then [] else ["ID must be a positive number"]
  | none => ["ID must be a numeric value"]

/-- Violations of `z.string().min(2, "Name must be at least 2 characters").optional()`. -/
def nameErrors (name : Option String) : List String :=
  match name with
  | none => []
  | some n => if 2 ≤ n.length then [] else ["Name must be at least 2 characters"]

/-- Violations of `z.string().email("Invalid email format").optional()`; the
email-shape test itself is kept abstract as a Boolean predicate. -/
def emailErrors (isEmail : String → Bool) (email : Option String) : List String :=
  match email with
  | none => []
  | some e => if isEmail e then [] else ["Invalid email format"]

/-- Violations of `z.number().int().min(0, "Age must be a positive number").optional()`;
the `int()` check cannot fail in this model since age is carried as `Int`. -/
def ageErrors (age : Option Int) : List String :=
  match age with
  | none => []
  | some a => if 0 ≤ a then [] else ["Age must be a positive number"]

/-- `UpdateUserSchema`: `params.id` as a positive integer; body fields all
optional under the Create constraints; and the `.refine` requiring at least one
body key, whose message fires exactly when no field is supplied. -/
def UpdateUserSchema.parse (isEmail : String → Bool) (idStr : String) (body : UpdateData) :
    List String :=
  commonValidationsId idStr ++
    nameErrors body.name ++ emailErrors isEmail body.email ++ ageErrors body.age ++
    (if body.name = none ∧ body.email = none ∧ body.age = none then
      ["At least one field must be provided for update"]
    else [])

/-- `Number.parseInt(req.params.id, 10)` on the digit strings that survive
validation. -/
def parseIntBase10 (s : String) : Option Nat := strToNat s

/-- The PUT `/users/:id` pipeline: `validateRequest(UpdateUserSchema)`, then on
`next()` the controller parses the id and calls `userService.update`; a
short-circuited validation failure leaves the store untouched. -/
def updateEndpoint (isEmail : String → Bool) (idStr : String) (body : UpdateData)
    (s : Store) (now : Nat) : ServiceResponse × Store :=
  match validateRequest (fun r : String × UpdateData => UpdateUserSchema.parse isEmail r.1 r.2)
      (idStr, body) with
  | MiddlewareOutcome.respond env => (env, s)
  | MiddlewareOutcome.next req =>
    UserService.update s ((parseIntBase10 req.1).getD 0) req.2 now

/-- The transport response written by the adapter: a status code and the
serialized body. -/
structure HttpResponse where
  status : Nat
  body : ServiceResponse
deriving DecidableEq, Repr

/-- `handleServiceResponse(serviceResponse, response)` from `httpHandlers`:
`undefined` (`none`) gets the defensive 500 sentinel envelope; otherwise the
envelope's own status code and the envelope itself, verbatim. -/
def handleServiceResponse (serviceResponse : Option ServiceResponse) : HttpResponse :=
  match serviceResponse with
  | none =>
    { status := StatusCodes.INTERNAL_SERVER_ERROR,
      body :=
        { success := false,
          message := "An unexpected error occurred: Service response is undefined",
          responseObject := none,
          statusCode := StatusCodes.INTERNAL_SERVER_ERROR } }
  | some r => { status := r.statusCode, body := r }

/-! Concrete fixtures used to instantiate the theorems below. -/

/-- A sample stored user. -/
def annUser : User := ⟨1, "Ann", "ann@x.com", some 32, 0, 0⟩

/-- A second sample stored user. -/
def bobUser : User := ⟨2, "Bob", "bob@x.com", none, 0, 0⟩

/-- A stored user whose email is the empty string. -/
def emptyEmailUser : User := ⟨2, "Bob", "", none, 0, 0⟩

/-- A one-user store. -/
def demoStore : Store := ⟨[annUser], 2⟩

/-- A two-user store. -/
def twoUserStore : Store := ⟨[annUser, bobUser], 3⟩

/-- A store holding a user with an empty-string email alongside `annUser`. -/
def emptyEmailStore : Store := ⟨[annUser, emptyEmailUser], 3⟩

/-- A repository behaviour in which every call raises. -/
def errRepo : RepoBehavior :=
  { findAllAsync := .error "boom",
    findByIdAsync := fun _ => .error "boom",
    createAsync := fun _ => .error "boom",
    updateAsync := fun _ _ => .error "boom",
    deleteAsync := fun _ => .error "boom" }

/-- A repository behaviour whose existence check finds a user but whose
delete reports zero rows affected. -/
def droppedDeleteRepo : RepoBehavior :=
  { findAllAsync := .ok [annUser],
    findByIdAsync := fun _ => .ok (some annUser),
    createAsync := fun d => .ok ⟨9, d.name, d.email, d.age, 0, 0⟩,
    updateAsync := fun _ _ => .ok none,
    deleteAsync := fun _ => .ok false }

/-! Supporting lemmas about the repository layer. -/

theorem findAllAsync_eq (s : Store) : UserRepository.findAllAsync s = s.rows := by
  simp [UserRepository.findAllAsync]

theorem findByIdAsync_eq (s : Store) (id : Nat) :
    UserRepository.findByIdAsync s id = (s.rows.filter (fun u => u.id == id)).head? := by
  unfold UserRepository.findByIdAsync
  cases h : s.rows.filter (fun u => u.id == id) <;> simp

theorem findByIdAsync_eq_none (s : Store) (id : Nat) :
    UserRepository.findByIdAsync s id = none ↔ ∀ u ∈ s.rows, u.id ≠ id := by
  rw [findByIdAsync_eq]
  simp [List.head?_eq_none_iff, List.filter_eq_nil_iff]

theorem findByIdAsync_mem (s : Store) (id : Nat) (u : User)
    (h : UserRepository.findByIdAsync s id = some u) : u ∈ s.rows ∧ u.id = id := by
  rw [findByIdAsync_eq] at h
  rw [List.head?_eq_some_iff] at h
  obtain ⟨t, ht⟩ := h
  have hm : u ∈ s.rows.filter (fun v => v.id == id) := by
    rw [ht]; exact List.mem_cons_self u t
  have := List.mem_filter.mp hm
  exact ⟨this.1, by simpa using this.2⟩

theorem findByIdAsync_isSome (s : Store) (id : Nat) (u : User) (hu : u ∈ s.rows)
    (hid : u.id = id) : ∃ v, UserRepository.findByIdAsync s id = some v := by
  rw [findByIdAsync_eq]
  cases h : s.rows.filter (fun v => v.id == id) with
  | nil =>
    rw [List.filter_eq_nil_iff] at h
    exact absurd (by simpa using hid) (h u hu)
  | cons a t => exact ⟨a, rfl⟩

/-- C9: `handleServiceResponse` sends the defensive 500 sentinel envelope when
the envelope argument is `undefined`, and otherwise writes the envelope's own
status code and the envelope itself verbatim as the transport response. -/
theorem C9_handleServiceResponse (r : ServiceResponse) :
    handleServiceResponse none =
      { status := StatusCodes.INTERNAL_SERVER_ERROR,
        body :=
          { success := false,
            message := "An unexpected error occurred: Service response is undefined",
            responseObject := none,
            statusCode := StatusCodes.INTERNAL_SERVER_ERROR } } ∧
    handleServiceResponse (some r) = { status := r.statusCode, body := r } :=
  ⟨rfl, rfl⟩

/-- C10: `UserRepository.createAsync` takes the first row of its post-insert
re-read with no emptiness check, and that access is always safe — the re-read
by the assigned id always yields a row, so create never returns a not-found
signal; `updateAsync`, in contrast, has a `none`-returning path. -/
theorem C10_createAsync_first_row_safe :
    (∀ (s : Store) (data : CreateData) (now : Nat),
      ((UserRepository.createAsync s data now).1).isSome = true) ∧
    (UserRepository.updateAsync ⟨[], 1⟩ 1 ⟨some "Zed", none, none⟩ 0).1 = none := by
  constructor
  · intro s data now
    unfold UserRepository.createAsync
    simp [List.filter_append, List.head?_eq_none_iff, List.append_eq_nil]
  · decide

/-- C4: on a schema violation `validateRequest` short-circuits with a failure
envelope at 400 whose message is `"Invalid input: "` followed by the violation
messages joined with `", "`, never invoking the controller; on success it
yields control with the request values unchanged. -/
theorem C4_validateRequest (ρ : Type) (parse : ρ → List String) (req : ρ) :
    (parse req = [] → validateRequest parse req = MiddlewareOutcome.next req) ∧
    (∀ e es, parse req = e :: es →
      validateRequest parse req =
        MiddlewareOutcome.respond
          (ServiceResponse.mkFailure
            ("Invalid input: " ++ String.intercalate ", " (e :: es)) none
            StatusCodes.BAD_REQUEST)) := by
  constructor
  · intro h; simp [validateRequest, h]
  · intro e es h; simp [validateRequest, h]

/-- Witness for C4 at a concrete schema and request: the update schema over an
empty body produces one violation and the middleware responds with 400. -/
theorem C4_validateRequest_witness :
    validateRequest
        (fun r : String × UpdateData => UpdateUserSchema.parse (fun _ => true) r.1 r.2)
        ("3", UpdateData.empty) =
      MiddlewareOutcome.respond
        (ServiceResponse.mkFailure
          ("Invalid input: " ++
            String.intercalate ", " ["At least one field must be provided for update"]) none
          StatusCodes.BAD_REQUEST) :=
  (C4_validateRequest _ _ _).2 "At least one field must be provided for update" [] (by decide)

/-- C7: an UpdateUser request with an empty body is rejected by validation with
status 400 and a message starting with `"Invalid input"`, whatever the id string
and whatever the stored users are, and the store is untouched. -/
theorem C7_update_empty_body (isEmail : String → Bool) (idStr : String) (s : Store)
    (now : Nat) :
    (updateEndpoint isEmail idStr UpdateData.empty s now).1.statusCode =
      StatusCodes.BAD_REQUEST ∧
    (∃ rest, (updateEndpoint isEmail idStr UpdateData.empty s now).1.message =
      "Invalid input: " ++ rest) ∧
    (updateEndpoint isEmail idStr UpdateData.empty s now).1.success = false ∧
    (updateEndpoint isEmail idStr UpdateData.empty s now).2 = s := by
  have hparse : UpdateUserSchema.parse isEmail idStr UpdateData.empty =
      commonValidationsId idStr ++ ["At least one field must be provided for update"] := by
    simp [UpdateUserSchema.parse, UpdateData.empty, nameErrors, emailErrors, ageErrors]
  cases h : commonValidationsId idStr ++ ["At least one field must be provided for update"] with
  | nil => exact absurd h (by simp)
  | cons e es =>
    have hv : validateRequest
        (fun r : String × UpdateData => UpdateUserSchema.parse isEmail r.1 r.2)
        (idStr, UpdateData.empty) =
        MiddlewareOutcome.respond
          (ServiceResponse.mkFailure
            ("Invalid input: " ++ String.intercalate ", " (e :: es)) none
            StatusCodes.BAD_REQUEST) := by
      simp only [validateRequest, hparse, h]
    refine ⟨?_, ⟨String.intercalate ", " (e :: es), ?_⟩, ?_, ?_⟩ <;>
      simp [updateEndpoint, hv, ServiceResponse.mkFailure]

/-- C1: `UserService.create` fails with `"Email already in use"`/409 and leaves
the store untouched when some stored user's email equals (case-sensitively) the
input's email, and otherwise inserts exactly one row and returns the
`"User created successfully"`/201 envelope carrying the created record. -/
theorem C1_create_email_uniqueness (s : Store) (data : CreateData) (now : Nat)
    (hwf : s.WF) :
    ((∃ u ∈ s.rows, u.email = data.email) →
      UserService.create s data now =
        (ServiceResponse.mkFailure "Email already in use" none StatusCodes.CONFLICT, s)) ∧
    ((∀ u ∈ s.rows, u.email ≠ data.email) →
      UserService.create s data now =
        (ServiceResponse.mkSuccess "User created successfully"
          (some (RespBody.user
            { id := s.nextId, name := data.name, email := data.email, age := data.age,
              createdAt := now, updatedAt := now })) StatusCodes.CREATED,
         { rows := s.rows ++
            [{ id := s.nextId, name := data.name, email := data.email, age := data.age,
               createdAt := now, updatedAt := now }],
           nextId := s.nextId + 1 })) := by
  constructor
  · rintro ⟨u, hu, he⟩
    have hex : (UserRepository.findAllAsync s).any (fun v => v.email == data.email) = true := by
      rw [findAllAsync_eq, List.any_eq_true]
      exact ⟨u, hu, by simp [he]⟩
    simp [UserService.create, hex]
  · intro hall
    have hex : (UserRepository.findAllAsync s).any (fun v => v.email == data.email) = false := by
      rw [findAllAsync_eq, List.any_eq_false]
      intro v hv
      simp [hall v hv]
    have hfil : s.rows.filter (fun u => u.id == s.nextId) = [] := by
      rw [List.filter_eq_nil_iff]
      intro a ha
      have := hwf a ha
      simp
      omega
    have hcreate : UserRepository.createAsync s data now =
        (some { id := s.nextId, name := data.name, email := data.email, age := data.age,
                createdAt := now, updatedAt := now },
         { rows := s.rows ++
            [{ id := s.nextId, name := data.name, email := data.email, age := data.age,
               createdAt := now, updatedAt := now }],
           nextId := s.nextId + 1 }) := by
      unfold UserRepository.createAsync
      simp [List.filter_append, hfil]
    simp [UserService.create, hex, hcreate]

/-- Witness for C1 on a one-user store: creating a second user with the stored
user's email yields the 409 conflict envelope and the unchanged store. -/
theorem C1_create_email_uniqueness_witness :
    Store.WF demoStore ∧ (∃ u ∈ demoStore.rows, u.email = "ann@x.com") ∧
    UserService.create demoStore ⟨"Bob", "ann@x.com", none⟩ 5 =
      (ServiceResponse.mkFailure "Email already in use" none StatusCodes.CONFLICT,
       demoStore) := by
  refine ⟨by decide, ⟨annUser, by simp [demoStore], rfl⟩, ?_⟩
  exact (C1_create_email_uniqueness demoStore ⟨"Bob", "ann@x.com", none⟩ 5 (by decide)).1
    ⟨annUser, by simp [demoStore], rfl⟩

/-- C6: deleting an existing id yields the 204 success envelope, and deleting
the same id again with no interleaving operation yields the 404 failure and an
unchanged store — never a repeated 204; delete on an absent id is 404; and a
present user whose repository delete reports zero affected rows yields the
`"Failed to delete user"`/500 failure. -/
theorem C6_delete_idempotence (s : Store) (id : Nat) (repo : RepoBehavior) (u : User) :
    ((∃ v ∈ s.rows, v.id = id) →
      (UserService.delete s id).1 =
        ServiceResponse.mkSuccess "User deleted successfully" none StatusCodes.NO_CONTENT ∧
      UserService.delete (UserService.delete s id).2 id =
        (ServiceResponse.mkFailure "User not found" none StatusCodes.NOT_FOUND,
         (UserService.delete s id).2)) ∧
    ((∀ v ∈ s.rows, v.id ≠ id) →
      UserService.delete s id =
        (ServiceResponse.mkFailure "User not found" none StatusCodes.NOT_FOUND, s)) ∧
    (repo.findByIdAsync id = .ok (some u) → repo.deleteAsync id = .ok false →
      UserService.deleteE repo id =
        ServiceResponse.mkFailure "Failed to delete user" none
          StatusCodes.INTERNAL_SERVER_ERROR) := by
  refine ⟨?_, ?_, ?_⟩
  · rintro ⟨v, hv, hvid⟩
    obtain ⟨w, hw⟩ := findByIdAsync_isSome s id v hv hvid
    have hfilne : s.rows.filter (fun x => x.id == id) ≠ [] := by
      intro hnil
      rw [List.filter_eq_nil_iff] at hnil
      exact hnil v hv (by simp [hvid])
    have hdel : UserRepository.deleteAsync s id =
        (true, { rows := s.rows.filter (fun x => x.id != id), nextId := s.nextId }) := by
      unfold UserRepository.deleteAsync
      simp [List.length_pos, hfilne]
    have h1 : UserService.delete s id =
        (ServiceResponse.mkSuccess "User deleted successfully" none StatusCodes.NO_CONTENT,
         { rows := s.rows.filter (fun x => x.id != id), nextId := s.nextId }) := by
      simp [UserService.delete, hw, hdel]
    have hnone : UserRepository.findByIdAsync
        { rows := s.rows.filter (fun x => x.id != id), nextId := s.nextId } id = none := by
      rw [findByIdAsync_eq_none]
      intro x hx
      simp only [List.mem_filter] at hx
      simpa using hx.2
    constructor
    · rw [h1]
    · rw [h1]
      simp [UserService.delete, hnone]
  · intro hall
    have hnone : UserRepository.findByIdAsync s id = none :=
      (findByIdAsync_eq_none s id).mpr hall
    simp [UserService.delete, hnone]
  · intro h1 h2
    simp [UserService.deleteE, UserService.deleteTry, h1, h2]

/-- Witness for C6 on a one-user store and on a behaviour whose delete affects
zero rows. -/
theorem C6_delete_idempotence_witness :
    (∃ v ∈ demoStore.rows, v.id = 1) ∧
    (UserService.delete demoStore 1).1 =
      ServiceResponse.mkSuccess "User deleted successfully" none StatusCodes.NO_CONTENT ∧
    UserService.delete (UserService.delete demoStore 1).2 1 =
      (ServiceResponse.mkFailure "User not found" none StatusCodes.NOT_FOUND,
       (UserService.delete demoStore 1).2) ∧
    UserService.deleteE droppedDeleteRepo 1 =
      ServiceResponse.mkFailure "Failed to delete user" none
        StatusCodes.INTERNAL_SERVER_ERROR := by
  have h := C6_delete_idempotence demoStore 1 droppedDeleteRepo annUser
  refine ⟨⟨annUser, by simp [demoStore], rfl⟩, ?_, ?_, ?_⟩
  · exact (h.1 ⟨annUser, by simp [demoStore], rfl⟩).1
  · exact (h.1 ⟨annUser, by simp [demoStore], rfl⟩).2
  · exact h.2.2 rfl rfl

/-- C5: `UserRepository.updateAsync` with no supplied fields behaves exactly as
`findByIdAsync`; when no row has the target id it reports the explicit `none`
signal and leaves the rows unchanged; and on a found target it returns the
re-read updated row, in which exactly the supplied fields (and the refreshed
`updatedAt`) change and unsupplied fields keep their stored values. -/
theorem C5_updateAsync (s : Store) (id : Nat) (data : UpdateData) (now : Nat) (u : User) :
    (data = UpdateData.empty →
      UserRepository.updateAsync s id data now = (UserRepository.findByIdAsync s id, s)) ∧
    (data ≠ UpdateData.empty → (∀ v ∈ s.rows, v.id ≠ id) →
      UserRepository.updateAsync s id data now = (none, s)) ∧
    (data ≠ UpdateData.empty → UserRepository.findByIdAsync s id = some u →
      (UserRepository.updateAsync s id data now).1 =
        some { u with
          name := data.name.getD u.name,
          email := data.email.getD u.email,
          age := match data.age with | some a => some a | none => u.age,
          updatedAt := now }) := by
  have hempty_iff : (data.name = none ∧ data.email = none ∧ data.age = none) ↔
      data = UpdateData.empty := by
    cases data with
    | mk n e a => simp [UpdateData.empty]
  refine ⟨?_, ?_, ?_⟩
  · intro h
    have := hempty_iff.mpr h
    unfold UserRepository.updateAsync
    rw [if_pos this]
  · intro hne hall
    have hc : ¬(data.name = none ∧ data.email = none ∧ data.age = none) := fun hc =>
      hne (hempty_iff.mp hc)
    have hfil : s.rows.filter (fun v => v.id == id) = [] := by
      rw [List.filter_eq_nil_iff]
      intro a ha
      simpa using hall a ha
    have hmap : s.rows.map
        (fun v => if v.id == id then UserRepository.applyUpdate data now v else v) = s.rows := by
      have hid : ∀ v ∈ s.rows,
          (if v.id == id then UserRepository.applyUpdate data now v else v) = v := by
        intro v hv
        rw [if_neg]
        simpa using hall v hv
      rw [List.map_congr_left hid]
      exact s.rows.map_id
    simp only [UserRepository.updateAsync, if_neg hc, hfil, hmap, List.length_nil,
      if_pos rfl]
    simp
  · intro hne hsome
    have hc : ¬(data.name = none ∧ data.email = none ∧ data.age = none) := fun hc =>
      hne (hempty_iff.mp hc)
    have hhead : (s.rows.filter (fun v => v.id == id)).head? = some u := by
      rw [← findByIdAsync_eq]
      exact hsome
    rw [List.head?_eq_some_iff] at hhead
    obtain ⟨t, ht⟩ := hhead
    have huid : (u.id == id) = true := by
      have := List.mem_filter.mp (by rw [ht]; exact List.mem_cons_self u t)
      exact this.2
    have hpf : ∀ v ∈ s.rows,
        ((if v.id == id then UserRepository.applyUpdate data now v else v).id == id) =
          (v.id == id) := by
      intro v _
      by_cases hv : (v.id == id) = true
      · simp [hv, UserRepository.applyUpdate]
      · simp [hv]
    have hfil2 : (s.rows.map
          (fun v => if v.id == id then UserRepository.applyUpdate data now v else v)).filter
            (fun v => v.id == id) =
        (s.rows.filter (fun v => v.id == id)).map
          (fun v => if v.id == id then UserRepository.applyUpdate data now v else v) := by
      rw [List.filter_map]
      simp only [Function.comp_def]
      rw [List.filter_congr hpf]
    have haff : ¬((s.rows.filter (fun v => v.id == id)).length = 0) := by
      rw [ht]
      simp
    simp only [UserRepository.updateAsync, if_neg hc, if_neg haff]
    rw [findByIdAsync_eq]
    simp only [hfil2, ht, List.map_cons, List.head?_cons, huid, if_pos]
    simp [UserRepository.applyUpdate, huid]

/-- Witness for C5: updating only the age of a stored user returns the re-read
row with that age, the refreshed timestamp, and all other fields unchanged. -/
theorem C5_updateAsync_witness :
    (⟨none, none, some 40⟩ : UpdateData) ≠ UpdateData.empty ∧
    UserRepository.findByIdAsync twoUserStore 2 = some bobUser ∧
    (UserRepository.updateAsync twoUserStore 2 ⟨none, none, some 40⟩ 9).1 =
      some { bobUser with age := some 40, updatedAt := 9 } := by
  refine ⟨by decide, by decide, ?_⟩
  exact (C5_updateAsync twoUserStore 2 ⟨none, none, some 40⟩ 9 bobUser).2.2 (by decide)
    (by decide)

/-- C2 (amended): for an existing target, a supplied, non-empty email that
differs from the target's current one and is held by another user makes
`UserService.update` fail with `"Email already in use"`/409 leaving the store
untouched; and when the email is not supplied or equals the target's own
current email, the uniqueness scan is skipped and the update proceeds straight
to the repository update. -/
theorem C2_update_email_uniqueness (s : Store) (id : Nat) (data : UpdateData) (now : Nat)
    (target : User) (htarget : UserRepository.findByIdAsync s id = some target) :
    (∀ e, data.email = some e → e ≠ "" → e ≠ target.email →
      (∃ u ∈ s.rows, u.email = e ∧ u.id ≠ id) →
      UserService.update s id data now =
        (ServiceResponse.mkFailure "Email already in use" none StatusCodes.CONFLICT, s)) ∧
    ((data.email = none ∨ data.email = some target.email) →
      UserService.update s id data now =
        (match UserRepository.updateAsync s id data now with
         | (none, s') =>
           (ServiceResponse.mkFailure "Failed to update user" none
             StatusCodes.INTERNAL_SERVER_ERROR, s')
         | (some u, s') =>
           (ServiceResponse.mkSuccess "User updated successfully" (some (RespBody.user u))
             StatusCodes.OK, s'))) := by
  constructor
  · rintro e he hne hneq ⟨u, hu, hue, huid⟩
    have hany : (UserRepository.findAllAsync s).any
        (fun v => v.email == e && v.id != id) = true := by
      rw [findAllAsync_eq, List.any_eq_true]
      exact ⟨u, hu, by simp [hue, huid]⟩
    simp [UserService.update, htarget, he, hne, hneq, hany]
  · rintro (h | h)
    · simp [UserService.update, htarget, h]
    · simp [UserService.update, htarget, h]

/-- Witness for C2 on a two-user store: updating the first user to the second
user's email is refused with 409 and no row changes. -/
theorem C2_update_email_uniqueness_witness :
    UserRepository.findByIdAsync twoUserStore 1 = some annUser ∧
    (⟨none, some "bob@x.com", none⟩ : UpdateData).email = some "bob@x.com" ∧
    ("bob@x.com" : String) ≠ "" ∧ ("bob@x.com" : String) ≠ annUser.email ∧
    (∃ u ∈ twoUserStore.rows, u.email = "bob@x.com" ∧ u.id ≠ 1) ∧
    UserService.update twoUserStore 1 ⟨none, some "bob@x.com", none⟩ 7 =
      (ServiceResponse.mkFailure "Email already in use" none StatusCodes.CONFLICT,
       twoUserStore) := by
  refine ⟨by decide, rfl, by decide, by decide,
    ⟨bobUser, by simp [twoUserStore], by decide, by decide⟩, ?_⟩
  exact (C2_update_email_uniqueness twoUserStore 1 ⟨none, some "bob@x.com", none⟩ 7 annUser
      (by decide)).1 "bob@x.com" rfl (by decide) (by decide)
    ⟨bobUser, by simp [twoUserStore], by decide, by decide⟩

/-- Counterexample to C2 as stated: the guard uses JavaScript truthiness, so a
supplied empty-string email is falsy and the uniqueness scan is skipped even
though the empty email is held by another user — the update proceeds instead of
failing with 409. -/
theorem C2_update_email_uniqueness_cex :
    UserRepository.findByIdAsync emptyEmailStore 1 = some annUser ∧
    (⟨none, some "", none⟩ : UpdateData).email = some "" ∧
    ("" : String) ≠ annUser.email ∧
    (∃ u ∈ emptyEmailStore.rows, u.email = "" ∧ u.id ≠ 1) ∧
    (UserService.update emptyEmailStore 1 ⟨none, some "", none⟩ 7).1 ≠
      ServiceResponse.mkFailure "Email already in use" none StatusCodes.CONFLICT := by
  refine ⟨by decide, rfl, by decide,
    ⟨emptyEmailUser, by simp [emptyEmailStore], by decide, by decide⟩, by decide⟩

/-- C3: every service operation catches whatever its repository calls raise —
the result is always either the `try`-block's own envelope or that operation's
fixed generic 500 envelope, and when a call raises with any message the result
is exactly the generic envelope, whose text never depends on the raised
message. -/
theorem C3_service_never_propagates (repo : RepoBehavior) (id : Nat) (cd : CreateData)
    (ud : UpdateData) (m : String) :
    (UserService.findAllTry repo = .error m →
      UserService.findAllE repo =
        ServiceResponse.mkFailure "An error occurred while retrieving users." none
          StatusCodes.INTERNAL_SERVER_ERROR) ∧
    (UserService.findByIdTry repo id = .error m →
      UserService.findByIdE repo id =
        ServiceResponse.mkFailure "An error occurred while finding user." none
          StatusCodes.INTERNAL_SERVER_ERROR) ∧
    (UserService.createTry repo cd = .error m →
      UserService.createE repo cd =
        ServiceResponse.mkFailure "An error occurred while creating user." none
          StatusCodes.INTERNAL_SERVER_ERROR) ∧
    (UserService.updateTry repo id ud = .error m →
      UserService.updateE repo id ud =
        ServiceResponse.mkFailure "An error occurred while updating user." none
          StatusCodes.INTERNAL_SERVER_ERROR) ∧
    (UserService.deleteTry repo id = .error m →
      UserService.deleteE repo id =
        ServiceResponse.mkFailure "An error occurred while deleting user." none
          StatusCodes.INTERNAL_SERVER_ERROR) ∧
    ((∃ r, UserService.findAllTry repo = .ok r ∧ UserService.findAllE repo = r) ∨
      (∃ m2, UserService.findAllTry repo = .error m2 ∧
        UserService.findAllE repo =
          ServiceResponse.mkFailure "An error occurred while retrieving users." none
            StatusCodes.INTERNAL_SERVER_ERROR)) ∧
    ((∃ r, UserService.findByIdTry repo id = .ok r ∧ UserService.findByIdE repo id = r) ∨
      (∃ m2, UserService.findByIdTry repo id = .error m2 ∧
        UserService.findByIdE repo id =
          ServiceResponse.mkFailure "An error occurred while finding user." none
            StatusCodes.INTERNAL_SERVER_ERROR)) ∧
    ((∃ r, UserService.createTry repo cd = .ok r ∧ UserService.createE repo cd = r) ∨
      (∃ m2, UserService.createTry repo cd = .error m2 ∧
        UserService.createE repo cd =
          ServiceResponse.mkFailure "An error occurred while creating user." none
            StatusCodes.INTERNAL_SERVER_ERROR)) ∧
    ((∃ r, UserService.updateTry repo id ud = .ok r ∧ UserService.updateE repo id ud = r) ∨
      (∃ m2, UserService.updateTry repo id ud = .error m2 ∧
        UserService.updateE repo id ud =
          ServiceResponse.mkFailure "An error occurred while updating user." none
            StatusCodes.INTERNAL_SERVER_ERROR)) ∧
    ((∃ r, UserService.deleteTry repo id = .ok r ∧ UserService.deleteE repo id = r) ∨
      (∃ m2, UserService.deleteTry repo id = .error m2 ∧
        UserService.deleteE repo id =
          ServiceResponse.mkFailure "An error occurred while deleting user." none
            StatusCodes.INTERNAL_SERVER_ERROR)) := by
  refine ⟨?_, ?_, ?_, ?_, ?_, ?_, ?_, ?_, ?_, ?_⟩
  · intro h; simp [UserService.findAllE, h]
  · intro h; simp [UserService.findByIdE, h]
  · intro h; simp [UserService.createE, h]
  · intro h; simp [UserService.updateE, h]
  · intro h; simp [UserService.deleteE, h]
  · cases h : UserService.findAllTry repo with
    | ok r => exact .inl ⟨r, rfl, by simp [UserService.findAllE, h]⟩
    | error e => exact .inr ⟨e, rfl, by simp [UserService.findAllE, h]⟩
  · cases h : UserService.findByIdTry repo id with
    | ok r => exact .inl ⟨r, rfl, by simp [UserService.findByIdE, h]⟩
    | error e => exact .inr ⟨e, rfl, by simp [UserService.findByIdE, h]⟩
  · cases h : UserService.createTry repo cd with
    | ok r => exact .inl ⟨r, rfl, by simp [UserService.createE, h]⟩
    | error e => exact .inr ⟨e, rfl, by simp [UserService.createE, h]⟩
  · cases h : UserService.updateTry repo id ud with
    | ok r => exact .inl ⟨r, rfl, by simp [UserService.updateE, h]⟩
    | error e => exact .inr ⟨e, rfl, by simp [UserService.updateE, h]⟩
  · cases h : UserService.deleteTry repo id with
    | ok r => exact .inl ⟨r, rfl, by simp [UserService.deleteE, h]⟩
    | error e => exact .inr ⟨e, rfl, by simp [UserService.deleteE, h]⟩

/-- Witness for C3 on a behaviour in which every repository call raises: each
of the five service operations returns its generic 500 envelope. -/
theorem C3_service_never_propagates_witness :
    UserService.findAllE errRepo =
      ServiceResponse.mkFailure "An error occurred while retrieving users." none
        StatusCodes.INTERNAL_SERVER_ERROR ∧
    UserService.findByIdE errRepo 1 =
      ServiceResponse.mkFailure "An error occurred while finding user." none
        StatusCodes.INTERNAL_SERVER_ERROR ∧
    UserService.createE errRepo ⟨"Ann", "ann@x.com", none⟩ =
      ServiceResponse.mkFailure "An error occurred while creating user." none
        StatusCodes.INTERNAL_SERVER_ERROR ∧
    UserService.updateE errRepo 1 UpdateData.empty =
      ServiceResponse.mkFailure "An error occurred while updating user." none
        StatusCodes.INTERNAL_SERVER_ERROR ∧
    UserService.deleteE errRepo 1 =
      ServiceResponse.mkFailure "An error occurred while deleting user." none
        StatusCodes.INTERNAL_SERVER_ERROR := by
  have h := C3_service_never_propagates errRepo 1 ⟨"Ann", "ann@x.com", none⟩
    UpdateData.empty "boom"
  exact ⟨h.1 rfl, h.2.1 rfl, h.2.2.1 rfl, h.2.2.2.1 rfl, h.2.2.2.2.1 rfl⟩

/-- Every success result of the findAll `try` body has its payload present
exactly when the success flag is set. -/
theorem findAllTry_ok_payload (repo : RepoBehavior) (r : ServiceResponse)
    (h : UserService.findAllTry repo = .ok r) : r.responseObject.isSome = r.success := by
  unfold UserService.findAllTry at h
  split at h
  · simp at h
  · split at h <;>
      (simp only [Except.ok.injEq] at h; subst h;
        simp [ServiceResponse.mkFailure, ServiceResponse.mkSuccess])

/-- Every success result of the findById `try` body has its payload present
exactly when the success flag is set. -/
theorem findByIdTry_ok_payload (repo : RepoBehavior) (id : Nat) (r : ServiceResponse)
    (h : UserService.findByIdTry repo id = .ok r) : r.responseObject.isSome = r.success := by
  unfold UserService.findByIdTry at h
  split at h
  · simp at h
  · simp only [Except.ok.injEq] at h; subst h; simp [ServiceResponse.mkFailure]
  · simp only [Except.ok.injEq] at h; subst h; simp [ServiceResponse.mkSuccess]

/-- Every success result of the create `try` body has its payload present
exactly when the success flag is set. -/
theorem createTry_ok_payload (repo : RepoBehavior) (cd : CreateData) (r : ServiceResponse)
    (h : UserService.createTry repo cd = .ok r) : r.responseObject.isSome = r.success := by
  unfold UserService.createTry at h
  split at h
  · simp at h
  · split at h
    · simp only [Except.ok.injEq] at h; subst h; simp [ServiceResponse.mkFailure]
    · split at h
      · simp at h
      · simp only [Except.ok.injEq] at h; subst h; simp [ServiceResponse.mkSuccess]

/-- Every success result of the update `try` body has its payload present
exactly when the success flag is set. -/
theorem updateTry_ok_payload (repo : RepoBehavior) (id : Nat) (ud : UpdateData)
    (r : ServiceResponse) (h : UserService.updateTry repo id ud = .ok r) :
    r.responseObject.isSome = r.success := by
  unfold UserService.updateTry at h
  split at h
  · simp at h
  · simp only [Except.ok.injEq] at h; subst h; simp [ServiceResponse.mkFailure]
  · split at h
    · simp at h
    · simp only [Except.ok.injEq] at h; subst h; simp [ServiceResponse.mkFailure]
    · split at h
      · simp at h
      · simp only [Except.ok.injEq] at h; subst h; simp [ServiceResponse.mkFailure]
      · simp only [Except.ok.injEq] at h; subst h; simp [ServiceResponse.mkSuccess]

/-- Every result of the delete `try` body carries a null payload. -/
theorem deleteTry_ok_payload (repo : RepoBehavior) (id : Nat) (r : ServiceResponse)
    (h : UserService.deleteTry repo id = .ok r) : r.responseObject = none := by
  unfold UserService.deleteTry at h
  split at h
  · simp at h
  · simp only [Except.ok.injEq] at h; subst h; simp [ServiceResponse.mkFailure]
  · split at h
    · simp at h
    · simp only [Except.ok.injEq] at h; subst h; simp [ServiceResponse.mkSuccess]
    · simp only [Except.ok.injEq] at h; subst h; simp [ServiceResponse.mkFailure]

/-- C8: over every repository behaviour, each service operation returns an
envelope whose payload is present exactly when the success flag is true, with
the single exception of delete, whose envelopes (its successful 204 included)
always carry a null payload — in particular every failure envelope carries a
null payload. -/
theorem C8_payload_iff_success (repo : RepoBehavior) (id : Nat) (cd : CreateData)
    (ud : UpdateData) :
    ((UserService.findAllE repo).responseObject.isSome =
      (UserService.findAllE repo).success) ∧
    ((UserService.findByIdE repo id).responseObject.isSome =
      (UserService.findByIdE repo id).success) ∧
    ((UserService.createE repo cd).responseObject.isSome =
      (UserService.createE repo cd).success) ∧
    ((UserService.updateE repo id ud).responseObject.isSome =
      (UserService.updateE repo id ud).success) ∧
    ((UserService.deleteE repo id).responseObject = none) := by
  refine ⟨?_, ?_, ?_, ?_, ?_⟩
  · unfold UserService.findAllE
    cases h : UserService.findAllTry repo with
    | ok r => exact findAllTry_ok_payload repo r h
    | error e => simp [ServiceResponse.mkFailure]
  · unfold UserService.findByIdE
    cases h : UserService.findByIdTry repo id with
    | ok r => exact findByIdTry_ok_payload repo id r h
    | error e => simp [ServiceResponse.mkFailure]
  · unfold UserService.createE
    cases h : UserService.createTry repo cd with
    | ok r => exact createTry_ok_payload repo cd r h
    | error e => simp [ServiceResponse.mkFailure]
  · unfold UserService.updateE
    cases h : UserService.updateTry repo id ud with
    | ok r => exact updateTry_ok_payload repo id ud r h
    | error e => simp [ServiceResponse.mkFailure]
  · unfold UserService.deleteE
    cases h : UserService.deleteTry repo id with
    | ok r => exact deleteTry_ok_payload repo id r h
    | error e => simp [ServiceResponse.mkFailure]

end ExpressTs
